import Mathlib

/-!
Verification development for the Power BI embed-session controller of the
evoquefitess front-end.  The definitions below are shallow embeddings of the
viewer components: the locator validator and radical cleanup of the
"LIMPEZA RADICAL" viewer variant, and the hygiene manager, token cache and
session controller of the pool/lifecycle viewer variant.  Asynchronous code is
modelled as explicit state-passing functions; each asynchronous continuation of
the source becomes one Lean function on the controller state.
-/

namespace EmbedViewer

/-! ### Character-list string helpers (used by the URL parser) -/

/-- Does the list `p` occur at the head of `s`? -/
def startsWithL : List Char → List Char → Bool
  | [], _ => true
  | _ :: _, [] => false
  | p :: ps, c :: cs => p = c && startsWithL ps cs

/-- Does the list `p` occur anywhere inside `s`?  Mirrors javascript
`String.includes`. -/
def containsSub (p : List Char) : List Char → Bool
  | [] => startsWithL p []
  | c :: cs => startsWithL p (c :: cs) || containsSub p cs

/-- `String.startsWith` on plain strings, via the list helper. -/
def startsWithStr (p s : String) : Bool := startsWithL p.toList s.toList

/-- Split at the first occurrence of the separator character; the second
component is `none` when the separator does not occur. -/
def splitFirstAt (sep : Char) : List Char → List Char × Option (List Char)
  | [] => ([], none)
  | c :: cs =>
    if c = sep then ([], some cs)
    else
      let r := splitFirstAt sep cs
      (c :: r.1, r.2)

/-- Split at the first occurrence of the substring `p`; `none` when `p` does
not occur. -/
def splitOnSub (p : List Char) : List Char → Option (List Char × List Char)
  | [] => if p = [] then some ([], []) else none
  | c :: cs =>
    if startsWithL p (c :: cs) then some ([], (c :: cs).drop p.length)
    else
      match splitOnSub p cs with
      | some r => some (c :: r.1, r.2)
      | none => none

/-- Split on every occurrence of the separator character (javascript
`String.split`). -/
def splitAll (sep : Char) : List Char → List (List Char)
  | [] => [[]]
  | c :: cs =>
    let r := splitAll sep cs
    if c = sep then [] :: r
    else
      match r with
      | [] => [[c]]
      | h :: t => (c :: h) :: t

/-- Strip leading and trailing whitespace (javascript `String.trim`). -/
def trimL (cs : List Char) : List Char :=
  ((cs.dropWhile Char.isWhitespace).reverse.dropWhile Char.isWhitespace).reverse

/-! ### URL parsing

Shallow embedding of the parts of the browser `URL` / `URLSearchParams`
objects the viewers use: `hostname`, `pathname`, `search` and
`searchParams.get`.  `parseUrl` returns `none` where the `URL` constructor
would throw (no scheme separator, or an empty scheme or authority). -/

structure ParsedUrl where
  scheme : List Char
  hostname : List Char
  pathname : List Char
  search : List Char
  deriving DecidableEq, Repr

def authorityEnd (c : Char) : Bool := c = '/' || c = '?' || c = '#'

def parseUrl (cs : List Char) : Option ParsedUrl :=
  match splitOnSub "://".toList cs with
  | none => none
  | some (scheme, rest) =>
    if scheme = [] then none
    else
      let authority := rest.takeWhile (fun c => !authorityEnd c)
      let afterAuth := rest.dropWhile (fun c => !authorityEnd c)
      if authority = [] then none
      else
        let hostname := (authority.takeWhile (fun c => c ≠ ':')).map Char.toLower
        match afterAuth with
        | [] => some { scheme := scheme, hostname := hostname, pathname := ['/'], search := [] }
        | c :: cs' =>
          if c = '?' then
            some { scheme := scheme, hostname := hostname, pathname := ['/']
                 , search := cs'.takeWhile (fun d => d ≠ '#') }
          else if c = '#' then
            some { scheme := scheme, hostname := hostname, pathname := ['/'], search := [] }
          else
            let pathname := (c :: cs').takeWhile (fun d => d ≠ '?' && d ≠ '#')
            let afterPath := (c :: cs').dropWhile (fun d => d ≠ '?' && d ≠ '#')
            match afterPath with
            | '?' :: q => some { scheme := scheme, hostname := hostname, pathname := pathname
                               , search := q.takeWhile (fun d => d ≠ '#') }
            | _ => some { scheme := scheme, hostname := hostname, pathname := pathname, search := [] }

/-- `URLSearchParams.get`: first value bound to the key, `none` when absent.
A parameter without `=` yields the empty value, as in the browser. -/
def searchParamGet (key : List Char) (search : List Char) : Option (List Char) :=
  let pairs := (splitAll '&' search).map (fun kv =>
    let r := splitFirstAt '=' kv
    (r.1, r.2.getD []))
  (pairs.find? (fun kv => decide (kv.1 = key))).map (fun kv => kv.2)

/-! ### Locator validator (radical-cleanup viewer, `validateEmbedUrl`)

Transliterated from the `ValidationResult`-returning `validateEmbedUrl`.
Error and warning messages are represented by constructors carrying the same
data the source interpolates into its message strings.  The source's
`typeof url !== "string"` guard is vacuous here because the embedding is
typed; the remaining checks are translated one by one in source order. -/

inductive VError where
  | emptyUrl
  | invalidProtocol (shown : List Char)
  | invalidDomain (hostname : List Char)
  | invalidPath (pathname : List Char)
  | reportIdMissing
  | reportIdMismatch (expected got : List Char)
  | malformedUrl
  deriving DecidableEq, Repr

inductive VWarning where
  | unexpectedDomain (hostname : List Char)
  | groupIdMissing
  deriving DecidableEq, Repr

structure ValidationResult where
  isValid : Bool
  errors : List VError
  warnings : List VWarning
  deriving DecidableEq, Repr

def validateEmbedUrl (url expectedReportId : String) : ValidationResult :=
  let cs := url.toList
  if (trimL cs).isEmpty then
    { isValid := false, errors := [.emptyUrl], warnings := [] }
  else
    let protoErrs : List VError :=
      if startsWithL "https://".toList cs then [] else [.invalidProtocol (cs.take 10)]
    match parseUrl cs with
    | none =>
      let errors := protoErrs ++ [VError.malformedUrl]
      { isValid := errors.isEmpty, errors := errors, warnings := [] }
    | some u =>
      let domainErrs : List VError :=
        if containsSub "powerbi.com".toList u.hostname then [] else [.invalidDomain u.hostname]
      let domainWarns : List VWarning :=
        if u.hostname = "app.powerbi.com".toList then [] else [.unexpectedDomain u.hostname]
      let pathErrs : List VError :=
        if containsSub "/reportEmbed".toList u.pathname then [] else [.invalidPath u.pathname]
      let idErrs : List VError :=
        match searchParamGet "reportId".toList u.search with
        | none => [.reportIdMissing]
        | some [] => [.reportIdMissing]
        | some rid =>
          if rid = expectedReportId.toList then []
          else [.reportIdMismatch expectedReportId.toList rid]
      let groupWarns : List VWarning :=
        match searchParamGet "groupId".toList u.search with
        | none => [.groupIdMissing]
        | some [] => [.groupIdMissing]
        | some _ => []
      let errors := protoErrs ++ domainErrs ++ pathErrs ++ idErrs
      { isValid := errors.isEmpty, errors := errors, warnings := domainWarns ++ groupWarns }

/-! ### Timing constants of the pool/lifecycle viewer

Millisecond constants taken verbatim from the source: the 45 s render safety
timeout, the 15 s abort deadline on the token request, the assumed token
lifetime and the safety margin subtracted when an entry is stored, and the
settle delays at the end of `performHygiene` (750 ms deep, 200 ms shallow). -/

def renderTimeoutMs : Nat := 45000

def tokenFetchTimeoutMs : Nat := 15000

def tokenTtlMs : Int := 3600000

def tokenExpiryMarginMs : Int := 300000

def hygieneSettleDelayMs (deep : Bool) : Nat := if deep then 750 else 200

/-! ### Environment hygiene manager (`performHygiene`, pool/lifecycle viewer)

The DOM is modelled just finely enough to express the operations the source
performs: the embed container holds a list of child nodes (each either a
Power BI iframe or some other node) and a list of attribute names; Power BI
iframes attached outside the container are counted separately, since the
source removes them with a document-wide query.  Service instances are
numbered so that constructing a brand-new `service.Service` is visible as a
fresh number. -/

structure DomNode where
  isPbiIframe : Bool
  deriving DecidableEq, Repr

structure EmbedContainer where
  children : List DomNode
  attrs : List String
  styleHeight : String
  styleWidth : String
  deriving DecidableEq, Repr

structure ViewerSt where
  mounted : Bool
  reportHandle : Option Nat
  serviceInstance : Option Nat
  nextServiceId : Nat
  outsidePbiIframes : Nat
  container : Option EmbedContainer
  workspaceClean : Bool
  serviceReady : Bool
  deriving DecidableEq, Repr

/-- The three widget-owned attributes the source removes from the container. -/
def pbiAttrNames : List String := ["powerbi-embed-url", "powerbi-type", "powerbi-id"]

/-- Number of `iframe[src*="powerbi"]` nodes in the whole document: those
outside the container plus the matching children of the container. -/
def docPbiIframeCount (st : ViewerSt) : Nat :=
  st.outsidePbiIframes +
    (match st.container with
     | some c => (c.children.filter (fun n => n.isPbiIframe)).length
     | none => 0)

/-- Step 3 of `performHygiene`: remove every Power BI iframe in the document,
inside and outside the container. -/
def removeDocPbiIframes (st : ViewerSt) : ViewerSt :=
  { st with
    outsidePbiIframes := 0
    container := st.container.map (fun c =>
      { c with children := c.children.filter (fun n => !n.isPbiIframe) }) }

/-- Step 4 of `performHygiene`: remove every child node, force the size
styles, and remove the three widget-owned attributes. -/
def hygieneClearContainer (c : EmbedContainer) : EmbedContainer :=
  { children := []
  , attrs := c.attrs.filter (fun a => !(decide (a ∈ pbiAttrNames)))
  , styleHeight := "100%"
  , styleWidth := "100%" }

/-- `verifyDomSanity`: the container must still exist (`domStable`) and the
document must hold no Power BI iframes (`iframeClean`).  The source also
writes both flags into its diagnostic `environmentChecks` record and logs the
counts; those effects carry no further control-flow weight and are omitted. -/
def verifyDomSanity (st : ViewerSt) : Bool :=
  match st.container with
  | none => false
  | some _ => decide (docPbiIframeCount st = 0)

/-- `performHygiene(deep)`.  Returns the new state, the verification result
(`none` for the unmounted early return, which in the source resolves with
`undefined`), and the settle delay awaited before returning.  The event
detachment of step 1 is `reportHandle := none`; `service.reset` (step 2) only
touches the service's internal registry, which is modelled as part of the
instance itself. -/
def performHygiene (deep : Bool) (st : ViewerSt) : ViewerSt × Option Bool × Nat :=
  if st.mounted = false then (st, none, 0)
  else
    let st1 := { st with workspaceClean := false, reportHandle := none }
    let st2 :=
      if deep || st1.serviceInstance.isNone then
        { st1 with
          serviceInstance := some st1.nextServiceId
          nextServiceId := st1.nextServiceId + 1
          serviceReady := true }
      else st1
    let st3 := if decide (0 < docPbiIframeCount st2) || deep then removeDocPbiIframes st2 else st2
    let st4 :=
      match st3.container with
      | some c => { st3 with container := some (hygieneClearContainer c) }
      | none => st3
    let clean := verifyDomSanity st4
    ({ st4 with workspaceClean := clean }, some clean, hygieneSettleDelayMs deep)

/-! ### Credential provider (`getEmbedToken` and the dashboard-change effect)

The token cache is the `tokenCache.current` object: an association list keyed
by the string `report_id ++ ":" ++ dataset_id`.  The network is one
`FetchOutcome` parameter describing what the single `apiFetch` of the call
would produce; `getEmbedToken` is the resulting pure state transformer.  Log
entries are constructors carrying the data the source interpolates. -/

structure Dash where
  report_id : String
  dataset_id : String
  deriving DecidableEq, Repr

structure TokenEntry where
  token : String
  embedUrl : String
  expires : Int
  deriving DecidableEq, Repr

def cacheKey (d : Dash) : String := d.report_id ++ ":" ++ d.dataset_id

abbrev TokenCache := List (String × TokenEntry)

def cacheLookup (k : String) (c : TokenCache) : Option TokenEntry :=
  (c.find? (fun e => decide (e.1 = k))).map (fun e => e.2)

def cacheErase (k : String) (c : TokenCache) : TokenCache :=
  c.filter (fun e => !(decide (e.1 = k)))

def cacheInsert (k : String) (v : TokenEntry) (c : TokenCache) : TokenCache :=
  (k, v) :: cacheErase k c

inductive FetchOutcome where
  | ok (token embedUrl : String)
  | httpError (status : Nat) (statusText body : String)
  | timeoutAbort
  | thrown (msg : String)
  deriving DecidableEq, Repr

inductive TokenLog where
  | cacheHit
  | newDashboardSkipCache
  | requesting
  | httpErrorLog (status : Nat) (statusText : String)
  | errorDetailLog (body : String)
  | missingFields
  | success
  | timeoutLog
  | fetchErrorLog (msg : String)
  deriving DecidableEq, Repr

structure TokenResult where
  value : Option (String × String)
  cache : TokenCache
  fromCache : Bool
  logs : List TokenLog
  deriving DecidableEq, Repr

/-- Expiry stored on a fresh entry: `Date.now() + tokenExpiresIn - 300000`
(one hour minus a five-minute safety margin). -/
def storeExpiry (now : Int) : Int := now + tokenTtlMs - tokenExpiryMarginMs

/-- The network half of `getEmbedToken`: reached when the cache is not used.
A 2xx body with a falsy `token` or `embedUrl` is rejected; a non-2xx status
logs the status line and the response body; an abort (the 15 s deadline) and
any other exception are caught and turned into a `none` result. -/
def fetchPath (d : Dash) (now : Int) (cache : TokenCache) (net : FetchOutcome)
    (preLogs : List TokenLog) : TokenResult :=
  match net with
  | .ok t u =>
    if t = "" || u = "" then
      { value := none, cache := cache, fromCache := false
      , logs := preLogs ++ [.requesting, .missingFields] }
    else
      { value := some (t, u)
      , cache := cacheInsert (cacheKey d) { token := t, embedUrl := u, expires := storeExpiry now } cache
      , fromCache := false
      , logs := preLogs ++ [.requesting, .success] }
  | .httpError s stx b =>
    { value := none, cache := cache, fromCache := false
    , logs := preLogs ++ [.requesting, .httpErrorLog s stx, .errorDetailLog b] }
  | .timeoutAbort =>
    { value := none, cache := cache, fromCache := false
    , logs := preLogs ++ [.requesting, .timeoutLog] }
  | .thrown m =>
    { value := none, cache := cache, fromCache := false
    , logs := preLogs ++ [.requesting, .fetchErrorLog m] }

/-- `getEmbedToken`.  `currentReportId` is the value of the
`currentReportId.current` ref at call time (the report last embedded);
`isNewDashboard` in the source is `currentReportId !== dashboard.report_id`.
The cache is served only when the dashboard is not new and the entry under
the compound key is unexpired; a new dashboard with an entry under the new
key deletes that entry before fetching. -/
def getEmbedToken (d : Dash) (currentReportId : String) (now : Int)
    (cache : TokenCache) (net : FetchOutcome) : TokenResult :=
  match cacheLookup (cacheKey d) cache with
  | some e =>
    if currentReportId = d.report_id then
      if now < e.expires then
        { value := some (e.token, e.embedUrl), cache := cache, fromCache := true, logs := [.cacheHit] }
      else fetchPath d now cache net []
    else fetchPath d now (cacheErase (cacheKey d) cache) net [.newDashboardSkipCache]
  | none => fetchPath d now cache net []

/-- The dashboard-change `useEffect`: when the report id changed it resets the
attempt counter and deletes the cache entry under the key built from the OLD
report id and the NEW dataset id, before scheduling a deep hygiene pass and a
forced re-embed. -/
structure DashChangeResult where
  cache : TokenCache
  attemptCounter : Nat
  triggered : Bool
  deriving DecidableEq, Repr

def dashboardChangeEffect (currentReportId : String) (d : Dash)
    (cache : TokenCache) (attemptCounter : Nat) : DashChangeResult :=
  if currentReportId = d.report_id then
    { cache := cache, attemptCounter := attemptCounter, triggered := false }
  else
    { cache := cacheErase (currentReportId ++ ":" ++ d.dataset_id) cache
    , attemptCounter := 0
    , triggered := true }

/-! ### Embed session controller state and continuations

`CtrlSt` carries the UI-observable React state (`isLoading`, `isReady`,
`loadingPhase`, `loadingProgress`, `error`) together with the refs the
asynchronous continuations consult: the current session id, the last embedded
report id, the attempt counter and the mounted flag.  Each `await` boundary of
`embedReport` becomes one function from the captured session id and the state
at resumption time to the new state. -/

structure CtrlObs where
  isLoading : Bool
  isReady : Bool
  loadingPhase : String
  loadingProgress : Nat
  errorMsg : Option String
  deriving DecidableEq, Repr

structure CtrlSt where
  obs : CtrlObs
  currentSessionId : Nat
  currentReportId : String
  attemptCounter : Nat
  mounted : Bool
  deriving DecidableEq, Repr

inductive CtrlLog where
  | busyInfo
  | attemptStart (attempt : Nat)
  | sessionCancelled
  deriving DecidableEq, Repr

inductive EmbedEntry where
  | rejectedUnmounted
  | rejectedBusy
  | proceed
  deriving DecidableEq, Repr

/-- The entry of `embedReport(force)` up to the start of phase 1: the
unmounted and the loading-in-progress guards, then the synchronous state
writes (`setIsLoading(true)`, `setIsReady(false)`, `setError(null)`, the
attempt increment, the fresh session id, `currentReportId`, phase
`preparing`, progress 10).  On `rejectedBusy` the source logs one info entry
and returns `false` without touching any state. -/
def embedReportEntry (force : Bool) (newSessionId : Nat) (reportId : String)
    (st : CtrlSt) : EmbedEntry × CtrlSt × List CtrlLog :=
  if st.mounted = false then (.rejectedUnmounted, st, [])
  else if st.obs.isLoading = true ∧ force = false then (.rejectedBusy, st, [.busyInfo])
  else
    (.proceed,
     { st with
       obs := { st.obs with
                isLoading := true, isReady := false, errorMsg := none
              , loadingPhase := "preparing", loadingProgress := 10 }
       attemptCounter := st.attemptCounter + 1
       currentSessionId := newSessionId
       currentReportId := reportId },
     [.attemptStart (st.attemptCounter + 1)])

/-- Continuation after `await performHygiene(...)`: re-validates the session
and, when current, advances to progress 25 and phase `authenticating`.  A
stale session only logs an info entry and resolves `false`. -/
def postCleanupCont (captured : Nat) (st : CtrlSt) : CtrlSt × Bool :=
  if st.mounted = false ∨ ¬captured = st.currentSessionId then (st, false)
  else
    ({ st with obs := { st.obs with loadingProgress := 25, loadingPhase := "authenticating" } },
     true)

def credFailureMsg : String := "Falha ao obter credenciais de acesso"

/-- The `catch` of `embedReport`: converts any thrown step failure into
`setError`/`setIsLoading(false)` plus the `onError` host notification, with
no mounted or session check. -/
def embedCatchHandler (msg : String) (st : CtrlSt) : CtrlSt :=
  { st with obs := { st.obs with errorMsg := some msg, isLoading := false } }

structure ContOutcome where
  state : CtrlSt
  continued : Bool
  notifiedFailure : Option String
  deriving DecidableEq, Repr

/-- Continuation after `await getEmbedToken()`: a missing token, an unmount
or a stale session all throw `credFailureMsg`, which the `catch` of
`embedReport` turns into an error-state write and an `onError` call; when
current it advances to progress 40 and phase `validating`. -/
def postTokenCont (captured : Nat) (tokenData : Option (String × String))
    (st : CtrlSt) : ContOutcome :=
  if tokenData = none ∨ st.mounted = false ∨ ¬captured = st.currentSessionId then
    { state := embedCatchHandler credFailureMsg st
    , continued := false
    , notifiedFailure := some credFailureMsg }
  else
    { state := { st with obs := { st.obs with loadingProgress := 40, loadingPhase := "validating" } }
    , continued := true
    , notifiedFailure := none }

/-- Continuation after the 200 ms DOM-stabilization wait of the configuring
phase: a stale session logs and resolves `false`; when current the flow
proceeds (the next writes are progress 70 and phase `rendering`). -/
def postStabilizationCont (captured : Nat) (st : CtrlSt) : CtrlSt × Bool :=
  if st.mounted = false ∨ ¬captured = st.currentSessionId then (st, false)
  else
    ({ st with obs := { st.obs with loadingProgress := 70, loadingPhase := "rendering" } },
     true)

inductive RetryGateAct where
  | reembed
  | droppedStale
  deriving DecidableEq, Repr

/-- The gate inside `handleError` after the deep hygiene pass and the 1 s
wait: re-embed with force only when still mounted and still the current
session, otherwise resolve `false` with no state write. -/
def errorRetryGate (captured : Nat) (st : CtrlSt) : CtrlSt × RetryGateAct :=
  if st.mounted = true ∧ captured = st.currentSessionId then (st, .reembed)
  else (st, .droppedStale)

def timeoutFatalMsg : String := "Timeout ao carregar dashboard"

inductive TimeoutAct where
  | dropped
  | retryWithDeepHygiene
  | fatal (msg : String)
  deriving DecidableEq, Repr

/-- The 45 s render-timeout callback.  It consults only the attempt closure's
`isResolved` flag, the mounted flag and the shared attempt counter — the
session id is in scope in the source but never compared.  On attempts 1–2 it
schedules `performHygiene(true)` followed (after 500 ms) by a forced
re-embed; from the 3rd attempt it writes the timeout error, clears the
loading flag and notifies `onError`. -/
def renderTimeoutCont (isResolved : Bool) (st : CtrlSt) : CtrlSt × TimeoutAct × Bool :=
  if isResolved = false ∧ st.mounted = true then
    if st.attemptCounter ≤ 2 then (st, .retryWithDeepHygiene, true)
    else
      ({ st with obs := { st.obs with errorMsg := some timeoutFatalMsg, isLoading := false } },
       .fatal timeoutFatalMsg, true)
  else (st, .dropped, isResolved)

/-! ### Auto-retry policy on widget embed-URL errors (`handleError`)

Cross-session simulation of the policy: every attach attempt (a run of
`embedReport` reaching `service.embed`) increments the shared attempt counter
by one, and a widget error whose message matches the embed/URL substrings is
retried silently while `attemptCounter <= 3` held at signal time, surfacing
the error otherwise. -/

/-- The retry condition of `handleError`:
`isUrlError && attemptCounter.current <= 3`, attempt-counter part. -/
def urlErrorRetryCondition (attempts : Nat) : Bool := attempts ≤ 3

structure RetrySim where
  attemptCounter : Nat
  attachCount : Nat
  surfaced : Bool
  deriving DecidableEq, Repr

/-- One attach attempt: `embedReport` increments the counter and reaches
`service.embed` once (token fetch and validation succeed in this scenario;
the failure arrives asynchronously from the widget). -/
def startAttachAttempt (s : RetrySim) : RetrySim :=
  { s with attemptCounter := s.attemptCounter + 1, attachCount := s.attachCount + 1 }

/-- Delivery of one widget embed-URL error signal to the live attempt. -/
def deliverUrlError (s : RetrySim) : RetrySim :=
  if s.surfaced = true then s
  else if urlErrorRetryCondition s.attemptCounter = true then startAttachAttempt s
  else { s with surfaced := true }

/-- State after the initial `embedReport` and `n` consecutive embed-URL error
signals. -/
def afterUrlErrors : Nat → RetrySim
  | 0 => startAttachAttempt { attemptCounter := 0, attachCount := 0, surfaced := false }
  | n + 1 => deliverUrlError (afterUrlErrors n)

/-! ### Per-session terminal notifications (`handleRendered` / `handleError` /
the timeout callback)

One logical session is one run of `embedReport` that reaches `service.embed`:
it owns one `isResolved` flag, one set of widget handlers and one timeout.
`sessStep` transliterates how each signal affects that closure; the attempt
counter is a shared ref, so its value at signal time is carried on the event.
A silent URL-error retry and an early-attempt timeout retry hand control to a
fresh session (a new `embedReport(true)` with a new session id) and notify
nothing from this one.  The `mountedAt` flag is the `isMounted.current` value
at dispatch time. -/

inductive SessEvent where
  | loaded (mountedAt : Bool)
  | rendered (mountedAt : Bool)
  | widgetError (mountedAt : Bool) (isUrlError : Bool) (attemptsAtSignal : Nat)
  | timeoutFired (mountedAt : Bool) (attemptsAtFire : Nat)
  deriving DecidableEq, Repr

structure SessSt where
  isResolved : Bool
  successNotices : Nat
  failureNotices : Nat
  deriving DecidableEq, Repr

def sessInit : SessSt := { isResolved := false, successNotices := 0, failureNotices := 0 }

def sessStep (st : SessSt) (e : SessEvent) : SessSt :=
  match e with
  | .loaded _ => st
  | .rendered m =>
    if st.isResolved = true ∨ m = false then st
    else { st with isResolved := true, successNotices := st.successNotices + 1 }
  | .widgetError m isUrl attempts =>
    if st.isResolved = true ∨ m = false then st
    else if isUrl = true ∧ urlErrorRetryCondition attempts = true then st
    else { st with isResolved := true, failureNotices := st.failureNotices + 1 }
  | .timeoutFired m attempts =>
    if st.isResolved = false ∧ m = true then
      if attempts ≤ 2 then { st with isResolved := true }
      else { st with isResolved := true, failureNotices := st.failureNotices + 1 }
    else st

/-- A whole session: either `embedReport` throws before `service.embed` (the
`catch` notifies failure exactly once and no handlers or timer ever exist),
or the attempt closure processes its signal interleaving. -/
def runSession (preEmbedFailure : Bool) (es : List SessEvent) : SessSt :=
  if preEmbedFailure then { isResolved := true, successNotices := 0, failureNotices := 1 }
  else es.foldl sessStep sessInit

/-! ### Radical cleanup (`radicalCleanup`, radical-cleanup viewer) -/

structure RNode where
  isIframe : Bool
  deriving DecidableEq, Repr

structure RContainer where
  children : List RNode
  attrs : List String
  className : String
  cssText : String
  deriving DecidableEq, Repr

structure RState where
  isCleaning : Bool
  abortCtrl : Option Nat
  reportHandle : Option Nat
  serviceHandle : Option Nat
  container : Option RContainer
  deriving DecidableEq, Repr

/-- The attribute filter of step 4: `powerbi-*`, `data-*`, `aria-*` and
`tabindex` are removed. -/
def removedAttr (a : String) : Bool :=
  startsWithStr "powerbi-" a || startsWithStr "data-" a || startsWithStr "aria-" a
    || decide (a = "tabindex")

/-- `radicalCleanup`.  A concurrent run returns immediately on the
`isCleaningRef` guard; otherwise every step runs inside its own `try`, so the
call never throws: abort and drop the in-flight request controller, detach
and drop the report handle, reset and destroy the service instance, remove
the container's iframes and then all remaining children, clear `innerHTML`,
strip the widget/data/aria attributes, and reset the class and inline style
to fixed strings.  The final verification re-clears an already-empty child
list, and the `finally` resets the cleaning flag. -/
def radicalCleanup (st : RState) : RState :=
  if st.isCleaning = true then st
  else
    { isCleaning := false
    , abortCtrl := none
    , reportHandle := none
    , serviceHandle := none
    , container := st.container.map (fun c =>
        { children := []
        , attrs := c.attrs.filter (fun a => !removedAttr a)
        , className := "flex-1 bg-white"
        , cssText := "display: none;" }) }

/-! ### Concrete scenarios and invariants used by the theorems -/

/-- Invariant for the per-session notification automaton: at most one
terminal notification in total, and none while the closure is unresolved. -/
def sessInv (st : SessSt) : Prop :=
  st.successNotices + st.failureNotices ≤ 1 ∧
    (st.isResolved = false → st.successNotices + st.failureNotices = 0)

/-- First dashboard of the credential-cache scenario. -/
def dashA : Dash := { report_id := "A", dataset_id := "Da" }

/-- Second dashboard of the credential-cache scenario; note the distinct
dataset id. -/
def dashB : Dash := { report_id := "B", dataset_id := "Db" }

/-- View dashboard A at time 0 with an empty cache: a network fetch stores
the entry for key `A:Da` with expiry `3300000`. -/
def c3step1 : TokenResult := getEmbedToken dashA "A" 0 [] (.ok "tokA" "urlA")

/-- The host switches to dashboard B: the dashboard-change effect deletes key
`A:Db` (old report id, NEW dataset id), which does not exist. -/
def c3cacheAfterSwitchToB : TokenCache := (dashboardChangeEffect "A" dashB c3step1.cache 0).cache

/-- View dashboard B at time 1000: a network fetch stores key `B:Db`. -/
def c3step2 : TokenResult := getEmbedToken dashB "B" 1000 c3cacheAfterSwitchToB (.ok "tokB" "urlB")

/-- The host switches back to dashboard A: the effect deletes key `B:Da`,
which does not exist either. -/
def c3cacheAfterSwitchBackToA : TokenCache :=
  (dashboardChangeEffect "B" dashA c3step2.cache 0).cache

/-- View dashboard A again at time 2000, well inside the ttl window.  The
network outcome parameter is an HTTP failure precisely so that a served token
proves the network was not consulted. -/
def c3step3 : TokenResult :=
  getEmbedToken dashA "A" 2000 c3cacheAfterSwitchBackToA (.httpError 500 "Internal Server Error" "boom")

/-- Controller state in which session 2 is current while the 45 s timer of
the attempt of session 1 is still pending with its closure unresolved. -/
def c2StaleState : CtrlSt :=
  { obs := { isLoading := true, isReady := false, loadingPhase := "rendering"
           , loadingProgress := 70, errorMsg := none }
  , currentSessionId := 2
  , currentReportId := "A"
  , attemptCounter := 3
  , mounted := true }

/-- Session id captured by the pending continuations of the superseded
session in the staleness scenarios. -/
def staleCapturedSession : Nat := 1

/-- Mounted controller state on its first attempt, used to witness the
early-attempt timeout branch. -/
def c6WitnessEarly : CtrlSt :=
  { obs := { isLoading := true, isReady := false, loadingPhase := "rendering"
           , loadingProgress := 70, errorMsg := none }
  , currentSessionId := 7
  , currentReportId := "R"
  , attemptCounter := 1
  , mounted := true }

/-- Mounted controller state on its third attempt, used to witness the fatal
timeout branch. -/
def c6WitnessLate : CtrlSt :=
  { c6WitnessEarly with attemptCounter := 3 }

/-- Mounted viewer state with a dirty container and residual iframes, used to
witness the deep-hygiene postcondition. -/
def c7WitnessState : ViewerSt :=
  { mounted := true
  , reportHandle := some 5
  , serviceInstance := some 0
  , nextServiceId := 1
  , outsidePbiIframes := 2
  , container := some { children := [{ isPbiIframe := true }, { isPbiIframe := false }]
                      , attrs := ["powerbi-type", "powerbi-id", "class"]
                      , styleHeight := "50%", styleWidth := "50%" }
  , workspaceClean := false
  , serviceReady := false }

/-- Mounted controller state with a load already in progress, used to witness
the busy guard. -/
def c10WitnessState : CtrlSt :=
  { obs := { isLoading := true, isReady := false, loadingPhase := "authenticating"
           , loadingProgress := 25, errorMsg := none }
  , currentSessionId := 4
  , currentReportId := "R"
  , attemptCounter := 1
  , mounted := true }

end EmbedViewer


namespace EmbedViewer

/-! ## Helper lemmas -/

/-- The network half of the token request never reports a cache hit. -/
theorem fetchPath_fromCache (d : Dash) (now : Int) (cache : TokenCache)
    (net : FetchOutcome) (preLogs : List TokenLog) :
    (fetchPath d now cache net preLogs).fromCache = false := by
  cases net with
  | ok t u => simp only [fetchPath]; split <;> rfl
  | httpError s stx b => rfl
  | timeoutAbort => rfl
  | thrown m => rfl

/-- Invariant of the url-error retry simulation: the attach count tracks the
attempt counter, and the counter never exceeds 4 because the retry condition
`attempts <= 3` stops incrementing it past that point. -/
theorem afterUrlErrors_invariant (n : Nat) :
    (afterUrlErrors n).attachCount = (afterUrlErrors n).attemptCounter ∧
      (afterUrlErrors n).attemptCounter ≤ 4 := by
  induction n with
  | zero => decide
  | succ k ih =>
    obtain ⟨h1, h2⟩ := ih
    simp only [afterUrlErrors, deliverUrlError, urlErrorRetryCondition, startAttachAttempt]
    split
    · exact ⟨h1, h2⟩
    · split
      · rename_i hcond
        simp only [decide_eq_true_eq] at hcond
        constructor
        · simp [h1]
        · simp; omega
      · exact ⟨h1, h2⟩

/-- One session signal preserves the notification invariant: at most one
terminal notification ever, and none while the closure is unresolved. -/
theorem sessStep_inv (st : SessSt) (e : SessEvent) (h : sessInv st) : sessInv (sessStep st e) := by
  obtain ⟨h1, h2⟩ := h
  cases e with
  | loaded m => exact ⟨h1, h2⟩
  | rendered m =>
    simp only [sessStep]
    split
    · exact ⟨h1, h2⟩
    · rename_i hg
      push_neg at hg
      have h0 := h2 (by simpa using hg.1)
      refine ⟨by simp; omega, by simp⟩
  | widgetError m isUrl attempts =>
    simp only [sessStep]
    split
    · exact ⟨h1, h2⟩
    · rename_i hg
      push_neg at hg
      have h0 := h2 (by simpa using hg.1)
      split
      · exact ⟨h1, h2⟩
      · refine ⟨by simp; omega, by simp⟩
  | timeoutFired m attempts =>
    simp only [sessStep]
    split
    · rename_i hg
      have h0 := h2 hg.1
      split
      · refine ⟨by simp; omega, by simp⟩
      · refine ⟨by simp; omega, by simp⟩
    · exact ⟨h1, h2⟩

/-- The notification invariant is preserved by any signal interleaving. -/
theorem sessFoldl_inv (es : List SessEvent) :
    ∀ st : SessSt, sessInv st → sessInv (es.foldl sessStep st) := by
  induction es with
  | nil => intro st h; exact h
  | cons e t ih => intro st h; exact ih _ (sessStep_inv st e h)

/-! ## Claim theorems -/

/-- C1 (counterexample): the claim states that three consecutive widget
embed-URL error signals produce exactly 3 attach attempts with the fatal
error surfaced on the 3rd signal.  On the code, the retry condition is
`attemptCounter <= 3` evaluated after the counter was incremented for the
current attempt, so the 3rd consecutive error signal still retries silently:
after three signals the attach count is 4 and no error has been surfaced. -/
theorem c1_counterexample :
    (afterUrlErrors 3).attachCount = 4 ∧ (afterUrlErrors 3).surfaced = false := by decide

/-- C1 (amended): under consecutive widget embed-URL error signals the
controller auto-retries silently on each of the first three signals, so
three consecutive signals yield four attach attempts and no surfaced error;
the fatal error is surfaced on the fourth consecutive signal, and the total
number of attach attempts never exceeds four for any number of signals. -/
theorem c1_amended :
    (afterUrlErrors 3).attachCount = 4 ∧ (afterUrlErrors 3).surfaced = false ∧
    (afterUrlErrors 4).attachCount = 4 ∧ (afterUrlErrors 4).surfaced = true ∧
    ∀ n, (afterUrlErrors n).attachCount ≤ 4 := by
  refine ⟨by decide, by decide, by decide, by decide, ?_⟩
  intro n
  have h := afterUrlErrors_invariant n
  omega

/-- C2 (counterexample): the 45 s render-timeout callback of a superseded
session (its closure captured session id 1, the current session id is 2)
still mutates UI-observable state: with the shared attempt counter at 3 it
writes the timeout error message, clears the loading flag and takes the
fatal action, although the session that scheduled it is stale — the callback
never compares session ids. -/
theorem c2_counterexample :
    staleCapturedSession ≠ c2StaleState.currentSessionId ∧
    (renderTimeoutCont false c2StaleState).1.obs ≠ c2StaleState.obs ∧
    (renderTimeoutCont false c2StaleState).2.1 = TimeoutAct.fatal timeoutFatalMsg := by decide

/-- C2 (amended): of the asynchronous continuations of `embedReport`, the
post-cleanup check, the post-stabilization check and the retry gate inside
the widget error handler do re-validate session currency and produce no
observable state change when the captured session is stale or the component
is unmounted; the post-token-fetch check instead converts a stale session
into the thrown credential failure (whose catch handler mutates error state),
and the render-timeout callback performs its action with no session check at
all. -/
theorem c2_amended (captured : Nat) (st : CtrlSt)
    (h : st.mounted = false ∨ captured ≠ st.currentSessionId) :
    postCleanupCont captured st = (st, false) ∧
    postStabilizationCont captured st = (st, false) ∧
    errorRetryGate captured st = (st, .droppedStale) := by
  refine ⟨?_, ?_, ?_⟩
  · rw [postCleanupCont, if_pos h]
  · rw [postStabilizationCont, if_pos h]
  · rw [errorRetryGate, if_neg]
    rintro ⟨hm, hs⟩
    rcases h with h | h
    · rw [hm] at h; exact Bool.noConfusion h
    · exact h hs

/-- C2 (witness): the three guarded continuations at a concrete stale state
(captured session 1, current session 2). -/
theorem c2_amended_witness :
    postCleanupCont staleCapturedSession c2StaleState = (c2StaleState, false) ∧
    postStabilizationCont staleCapturedSession c2StaleState = (c2StaleState, false) ∧
    errorRetryGate staleCapturedSession c2StaleState = (c2StaleState, .droppedStale) :=
  c2_amended staleCapturedSession c2StaleState (Or.inr (by decide))

/-- C3 (counterexample): view report A (dataset Da) at time 0, switch to
report B (dataset Db), switch back to A at time 2000 — all well inside the
ttl.  The claim states that switching always forces a network fetch and
removes the previous ref's stale cache entry; on the code the switch handler
deletes the key formed from the OLD report id and the NEW dataset id, so the
entry `A:Da` survives the switch away (third conjunct) and the return to A is
served from the cache with no network fetch (first two conjuncts: the token
of step 1 is returned even though the network outcome of the call is an
HTTP 500). -/
theorem c3_counterexample :
    c3step3.fromCache = true ∧
    c3step3.value = some ("tokA", "urlA") ∧
    cacheLookup (cacheKey dashA) c3cacheAfterSwitchToB =
      some { token := "tokA", embedUrl := "urlA", expires := 3300000 } := by decide

/-- C3 (amended): `getEmbedToken` serves the cache exactly when the requested
report id equals the last-embedded report id AND an entry under the compound
key `report_id:dataset_id` exists with `now < expires`; the dashboard-change
handler removes the entry keyed by the previous report id paired with the
NEW dataset id, so a network fetch is forced on switch only when that key
coincides with the previous ref's key (in particular when the dataset id is
unchanged), and a stale entry for a previous ref with a different dataset id
lingers. -/
theorem c3_amended :
    (∀ (d : Dash) (cur : String) (now : Int) (cache : TokenCache) (net : FetchOutcome),
      ((getEmbedToken d cur now cache net).fromCache = true ↔
        cur = d.report_id ∧ ∃ e, cacheLookup (cacheKey d) cache = some e ∧ now < e.expires)) ∧
    (∀ (cur : String) (d : Dash) (cache : TokenCache) (ac : Nat),
      (dashboardChangeEffect cur d cache ac).cache =
        if cur = d.report_id then cache
        else cacheErase (cur ++ ":" ++ d.dataset_id) cache) := by
  constructor
  · intro d cur now cache net
    cases hc : cacheLookup (cacheKey d) cache with
    | none => simp [getEmbedToken, hc, fetchPath_fromCache]
    | some e =>
      by_cases hcur : cur = d.report_id
      · by_cases hf : now < e.expires
        · simp [getEmbedToken, hc, hcur, hf]
        · simp [getEmbedToken, hc, hcur, hf, fetchPath_fromCache]
      · simp [getEmbedToken, hc, hcur, fetchPath_fromCache]
  · intro cur d cache ac
    by_cases hcur : cur = d.report_id <;> simp [dashboardChangeEffect, hcur]

/-- C4: per logical session — one run of `embedReport`, either failing before
`service.embed` or installing one attempt closure — the controller emits at
most one success notification and at most one failure notification, and
never both, for every interleaving of loaded / rendered / widget-error
signals and the render-timeout firing, at every mounted flag and shared
attempt-counter value observed by each signal. -/
theorem c4_terminal_notifications (preEmbedFailure : Bool) (es : List SessEvent) :
    (runSession preEmbedFailure es).successNotices ≤ 1 ∧
    (runSession preEmbedFailure es).failureNotices ≤ 1 ∧
    ¬((runSession preEmbedFailure es).successNotices = 1 ∧
      (runSession preEmbedFailure es).failureNotices = 1) := by
  have key : (runSession preEmbedFailure es).successNotices +
      (runSession preEmbedFailure es).failureNotices ≤ 1 := by
    cases preEmbedFailure with
    | true => simp [runSession]
    | false =>
      have h := sessFoldl_inv es sessInit (by refine ⟨by simp [sessInit], by simp [sessInit]⟩)
      simpa [runSession] using h.1
  refine ⟨by omega, by omega, ?_⟩
  rintro ⟨ha, hb⟩
  omega

/-- C5 (counterexample): the claim's well-formed example locator lives on
host `app.example.com`, which fails the validator's `powerbi.com` host check,
so it is invalid rather than valid-with-no-errors; and the empty locator
returns only the emptiness error although the scheme check is also violated,
so the checks are not fully independent. -/
theorem c5_counterexample :
    (validateEmbedUrl "https://app.example.com/reportEmbed?reportId=R1&groupId=G1" "R1").isValid
        = false ∧
    (validateEmbedUrl "" "R1").errors = [VError.emptyUrl] := by decide

/-- C5 (amended): `validateEmbedUrl` is valid exactly when its error list is
empty (so warnings never affect validity); the checks after the emptiness
guard are collected independently, while an empty locator returns just the
emptiness error and an unparseable one a single malformed-URL error; a
well-formed https locator on host `app.powerbi.com` with matching reportId
is valid with no errors; a mismatched reportId is invalid with one error
carrying both ids; a missing groupId is valid with exactly one warning; a
non-https scheme is invalid with exactly the scheme error. -/
theorem c5_amended :
    (∀ url expected, (validateEmbedUrl url expected).isValid =
        (validateEmbedUrl url expected).errors.isEmpty) ∧
    validateEmbedUrl "https://app.powerbi.com/reportEmbed?reportId=R1&groupId=G1" "R1" =
      { isValid := true, errors := [], warnings := [] } ∧
    validateEmbedUrl "https://app.powerbi.com/reportEmbed?reportId=R2&groupId=G1" "R1" =
      { isValid := false, errors := [.reportIdMismatch "R1".toList "R2".toList], warnings := [] } ∧
    validateEmbedUrl "https://app.powerbi.com/reportEmbed?reportId=R1" "R1" =
      { isValid := true, errors := [], warnings := [.groupIdMissing] } ∧
    validateEmbedUrl "http://app.powerbi.com/reportEmbed?reportId=R1&groupId=G1" "R1" =
      { isValid := false, errors := [.invalidProtocol "http://app".toList], warnings := [] } := by
  refine ⟨?_, by decide, by decide, by decide, by decide⟩
  intro url expected
  simp only [validateEmbedUrl]
  split
  · rfl
  · split <;> rfl

/-- C6: the render safety ceiling is 45 time-units (45000 ms); a timeout
firing on a mounted, unresolved attempt numbered 1 or 2 schedules a forced
deep hygiene pass followed by an automatic re-embed, and from the 3rd
attempt onward it writes the timeout error, clears the loading flag and
takes the fatal action. -/
theorem c6_render_timeout (st : CtrlSt) (hm : st.mounted = true) :
    renderTimeoutMs = 45 * 1000 ∧
    (st.attemptCounter ≤ 2 → renderTimeoutCont false st = (st, .retryWithDeepHygiene, true)) ∧
    (3 ≤ st.attemptCounter →
      renderTimeoutCont false st =
        ({ st with obs := { st.obs with errorMsg := some timeoutFatalMsg, isLoading := false } },
         .fatal timeoutFatalMsg, true)) := by
  refine ⟨rfl, ?_, ?_⟩
  · intro h
    simp [renderTimeoutCont, hm, h]
  · intro h
    have hn : ¬st.attemptCounter ≤ 2 := by omega
    simp [renderTimeoutCont, hm, hn]

/-- C6 (witness): the two timeout branches at concrete states on attempt 1
and attempt 3. -/
theorem c6_render_timeout_witness :
    renderTimeoutCont false c6WitnessEarly = (c6WitnessEarly, .retryWithDeepHygiene, true) ∧
    renderTimeoutCont false c6WitnessLate =
      ({ c6WitnessLate with
          obs := { c6WitnessLate.obs with errorMsg := some timeoutFatalMsg, isLoading := false } },
       .fatal timeoutFatalMsg, true) :=
  ⟨(c6_render_timeout c6WitnessEarly rfl).2.1 (by decide),
   (c6_render_timeout c6WitnessLate rfl).2.2 (by decide)⟩

/-- C7: after `performHygiene(deep := true)` on a mounted viewer with a
container, the container holds zero child nodes and none of the widget's
attributes, the verification query reports clean, a brand-new service
instance (the next fresh id) has been constructed rather than reusing the
old one, and the deep settle delay (750 ms) is strictly longer than the
shallow one (200 ms). -/
theorem c7_deep_hygiene (st : ViewerSt) (hm : st.mounted = true)
    (hc : st.container.isSome = true)
    (hfresh : ∀ k, st.serviceInstance = some k → k < st.nextServiceId) :
    (∀ c, (performHygiene true st).1.container = some c →
        c.children = [] ∧ ∀ a ∈ pbiAttrNames, a ∉ c.attrs) ∧
    (performHygiene true st).1.container.isSome = true ∧
    (performHygiene true st).2.1 = some true ∧
    (performHygiene true st).1.serviceInstance = some st.nextServiceId ∧
    (performHygiene true st).1.serviceInstance ≠ st.serviceInstance ∧
    hygieneSettleDelayMs true > hygieneSettleDelayMs false := by
  obtain ⟨c0, hc0⟩ := Option.isSome_iff_exists.mp hc
  have h1 : (performHygiene true st).1.container =
      some { children := []
           , attrs := c0.attrs.filter (fun a => !(decide (a ∈ pbiAttrNames)))
           , styleHeight := "100%", styleWidth := "100%" } := by
    simp [performHygiene, hm, hc0, removeDocPbiIframes, hygieneClearContainer]
  have h2 : (performHygiene true st).2.1 = some true := by
    simp [performHygiene, hm, hc0, removeDocPbiIframes, hygieneClearContainer,
      verifyDomSanity, docPbiIframeCount]
  have h3 : (performHygiene true st).1.serviceInstance = some st.nextServiceId := by
    simp [performHygiene, hm, hc0, removeDocPbiIframes, hygieneClearContainer]
  refine ⟨?_, ?_, h2, h3, ?_, by decide⟩
  · intro c hcc
    rw [h1] at hcc
    obtain rfl := (Option.some.injEq _ _).mp hcc.symm
    refine ⟨rfl, ?_⟩
    intro a ha hmem
    simp only [List.mem_filter, Bool.not_eq_eq_eq_not, Bool.not_true, decide_eq_false_iff_not]
      at hmem
    exact hmem.2 ha
  · rw [h1]
    rfl
  · rw [h3]
    cases hs : st.serviceInstance with
    | none => simp
    | some k =>
      have hk := hfresh k hs
      intro heq
      have := (Option.some.injEq _ _).mp heq
      omega

/-- C7 (witness): the deep-hygiene postcondition at a concrete dirty state
with residual iframes, widget attributes and an existing service instance. -/
theorem c7_deep_hygiene_witness :
    c7WitnessState.mounted = true ∧ c7WitnessState.container.isSome = true ∧
    (performHygiene true c7WitnessState).2.1 = some true ∧
    (performHygiene true c7WitnessState).1.serviceInstance = some c7WitnessState.nextServiceId :=
  ⟨rfl, rfl,
   (c7_deep_hygiene c7WitnessState rfl rfl
     (by intro k hk; simp [c7WitnessState] at hk ⊢; omega)).2.2.1,
   (c7_deep_hygiene c7WitnessState rfl rfl
     (by intro k hk; simp [c7WitnessState] at hk ⊢; omega)).2.2.2.1⟩

/-- C8: the token request is bounded by the fixed 15 time-unit (15000 ms)
abort deadline, and each failure outcome — non-2xx status, timeout abort, or
any other thrown error — is caught inside `getEmbedToken` and returned as a
plain `none` result whose log entries carry the status line and response
body (respectively the timeout or error message) for logging; no exception
propagates past the function boundary. -/
theorem c8_token_fetch :
    tokenFetchTimeoutMs = 15 * 1000 ∧
    (∀ (d : Dash) (cur : String) (now : Int) (s : Nat) (stx b : String),
      getEmbedToken d cur now [] (.httpError s stx b) =
        { value := none, cache := [], fromCache := false
        , logs := [.requesting, .httpErrorLog s stx, .errorDetailLog b] }) ∧
    (∀ (d : Dash) (cur : String) (now : Int),
      getEmbedToken d cur now [] .timeoutAbort =
        { value := none, cache := [], fromCache := false, logs := [.requesting, .timeoutLog] }) ∧
    (∀ (d : Dash) (cur : String) (now : Int) (m : String),
      getEmbedToken d cur now [] (.thrown m) =
        { value := none, cache := [], fromCache := false, logs := [.requesting, .fetchErrorLog m] }) :=
  ⟨rfl, fun _ _ _ _ _ _ => rfl, fun _ _ _ => rfl, fun _ _ _ _ => rfl⟩

/-- C9: `radicalCleanup` is idempotent as a state transformer — running it
twice in a row from any state yields exactly the state of a single run
(every step is wrapped in its own try/catch in the source, so neither call
can produce an error). -/
theorem c9_dispose_idempotent (st : RState) :
    radicalCleanup (radicalCleanup st) = radicalCleanup st := by
  by_cases h : st.isCleaning = true
  · simp [radicalCleanup, h]
  · cases hc : st.container with
    | none => simp [radicalCleanup, h, hc]
    | some c => simp [radicalCleanup, h, hc, List.filter_filter]

/-- C10: when a load is already in progress on a mounted viewer, calling
`embedReport` without the force flag is rejected by the busy guard: it
returns `false` (the `rejectedBusy` outcome, so `service.embed` is never
reached), leaves the controller state — phases, progress, error, flags,
session id, attempt counter — completely unchanged, and emits exactly one
info log entry. -/
theorem c10_busy_guard (st : CtrlSt) (hm : st.mounted = true) (hl : st.obs.isLoading = true)
    (sid : Nat) (rid : String) :
    embedReportEntry false sid rid st = (.rejectedBusy, st, [.busyInfo]) := by
  simp [embedReportEntry, hm, hl]

/-- C10 (witness): the busy guard at a concrete mounted, loading state. -/
theorem c10_busy_guard_witness :
    c10WitnessState.obs.isLoading = true ∧
    embedReportEntry false 99 "R2" c10WitnessState = (.rejectedBusy, c10WitnessState, [.busyInfo]) :=
  ⟨rfl, c10_busy_guard c10WitnessState rfl rfl 99 "R2"⟩

end EmbedViewer
